import Mathlib

/-!
Shallow embedding of `src/app/static/app.js` (browser front-end for a
personnel duty-scheduling application) and proofs about its behaviour.

The JavaScript is event-driven and effectful; we embed each handler as a
pure function from its inputs (current in-memory state, the outcome of the
network call it performs, the values of the bound form inputs) to the
requests it issues, the DOM writes it performs, and the updated state.
JS falsiness of strings (`''` is falsy) and of `null`/`undefined` is made
explicit via `Option String` and the `jsOr`/`jsTruthy` helpers.
-/

namespace SUP

/-- JS truthiness of a nullable string: `null`/`undefined` and `''` are falsy. -/
def jsTruthy : Option String → Bool
  | none => false
  | some s => !(s == "")

/-- JS `a || b` where `a` is a nullable string and `b` a string:
returns `b` when `a` is `null`/`undefined`/`''`. -/
def jsOr (a : Option String) (b : String) : String :=
  match a with
  | none => b
  | some s => if s == "" then b else s

/-- JS `a || b` on two plain strings (`''` is falsy). -/
def jsOrS (a b : String) : String :=
  if a == "" then b else a

/-- Concatenation of a list of strings, JS `array.join('')`. -/
def strJoin : List String → String
  | [] => ""
  | s :: rest => s ++ strJoin rest

/-- HTTP method of a request issued through `fetch`. -/
inductive Method where
  | GET
  | POST
deriving DecidableEq, Repr

/-- One outbound network request (method and full path with query string). -/
structure Request where
  method : Method
  path : String
deriving DecidableEq, Repr

end SUP

namespace SUP

/-! ### apiFetch (app.js lines 17-50) -/

/-- The body of a non-2xx response as `apiFetch` sees it: either a parsed
JSON object (of which only the `detail` and `message` fields matter for the
error message; a missing field reads as `undefined`, i.e. `none`) or plain
text (string property access yields `undefined`). -/
inductive ErrPayload where
  | json (detail message : Option String)
  | text (body : String)
deriving DecidableEq, Repr

/-- Outcome of one `fetch` call: the promise rejects (network error carrying
a browser message), or a response arrives that is not ok, or an ok response
whose parsed payload is `v`. -/
inductive FetchOutcome (α : Type) where
  | networkError (msg : String)
  | failure (statusText : String) (payload : ErrPayload)
  | success (v : α)
deriving DecidableEq, Repr

/-- `payload.detail || payload.message || response.statusText`
(app.js line 29), with JS `||` treating `undefined` and `''` as falsy and a
text payload having neither property. -/
def errMessage (p : ErrPayload) (statusText : String) : String :=
  match p with
  | .json detail message => jsOr detail (jsOr message statusText)
  | .text _ => statusText

/-- The text a toast displays for a thrown error:
`showToast(error.message || 'Помилка мережі')` (app.js line 33), where the
toast's `textContent` is set to exactly the given message (lines 38-41). -/
def toastText (m : String) : String :=
  if m == "" then "Помилка мережі" else m

/-- `apiFetch` (app.js lines 17-36): returns the parsed payload on an ok
response; otherwise throws an error whose message is drawn from
`detail`/`message`/statusText and shows a toast with that message.
Result: (the value returned or the error message thrown, toasts shown). -/
def apiFetch {α : Type} (out : FetchOutcome α) : Except String α × List String :=
  match out with
  | .networkError msg => (Except.error msg, [toastText msg])
  | .failure statusText payload =>
      let m := errMessage payload statusText
      (Except.error m, [toastText m])
  | .success v => (Except.ok v, [])

end SUP

namespace SUP

/-! ### Data model: records passed through from the backend -/

/-- A personnel record (`/api/personnel`); `callsign` may be absent. -/
structure Person where
  id : Nat
  full_name : String
  role : String
  callsign : Option String
  unit : String
deriving DecidableEq, Repr

/-- A schedule entry (`/api/schedule`); `note` may be absent. -/
structure ScheduleEntry where
  duty_date : String
  full_name : String
  code : String
  color : String
  note : Option String
deriving DecidableEq, Repr

/-- A plan entry (`/api/plan` and the dashboard's `plan` array); the time
and crew/equipment names may be absent. -/
structure PlanEntry where
  unit : String
  mission : String
  start_time : Option String
  end_time : Option String
  pilot_name : Option String
  navigator_name : Option String
  uav_name : Option String
deriving DecidableEq, Repr

/-- A vacation entry (`/api/vacations`). -/
structure VacationEntry where
  full_name : String
  start_date : String
  end_date : String
  status : String
deriving DecidableEq, Repr

/-- The nested `person` object of a dashboard status row. -/
structure DashPerson where
  full_name : String
  unit : String
deriving DecidableEq, Repr

/-- One element of the dashboard's `statuses` array. -/
structure StatusEntry where
  person : DashPerson
  status : String
deriving DecidableEq, Repr

/-- The `/api/dashboard` payload. -/
structure DashboardData where
  plan : List PlanEntry
  statuses : List StatusEntry
  date : String
deriving DecidableEq, Repr

/-- One row of the analytics `duty_summary` array. -/
structure DutySummaryRow where
  code : String
  name : String
  total : Nat
deriving DecidableEq, Repr

/-- One row of the analytics `workload` array. -/
structure WorkloadRow where
  full_name : String
  total : Nat
deriving DecidableEq, Repr

/-- The `/api/analytics/summary` payload. -/
structure AnalyticsData where
  duty_summary : List DutySummaryRow
  workload : List WorkloadRow
deriving DecidableEq, Repr

/-! ### statusColor (app.js lines 199-204) -/

/-- JS `String.prototype.toLowerCase` restricted to the alphabets the app
uses: ASCII A-Z and the basic Cyrillic uppercase range А-Я plus Ё. -/
def jsCharToLower (c : Char) : Char :=
  if 65 ≤ c.toNat && c.toNat ≤ 90 then Char.ofNat (c.toNat + 32)
  else if 0x410 ≤ c.toNat && c.toNat ≤ 0x42F then Char.ofNat (c.toNat + 32)
  else if c.toNat == 0x401 then Char.ofNat 0x451
  else c

/-- `status.toLowerCase()` as used by `statusColor`, mapped over the
character list of the string. -/
def jsToLower (s : String) : String :=
  ⟨s.data.map jsCharToLower⟩

/-- JS `str.includes(c)` for a single-character pattern `c`: whether the
character occurs in the string. -/
def includesChar (s : String) (c : Char) : Bool :=
  s.data.contains c

/-- `statusColor` (app.js lines 199-204): grey for a falsy status, green if
the lowercased text contains `в`, orange if it contains `р`, blue otherwise. -/
def statusColor (status : String) : String :=
  if status == "" then "#95a5a6"
  else if includesChar (jsToLower status) 'в' then "#2ecc71"
  else if includesChar (jsToLower status) 'р' then "#e67e22"
  else "#1f3c88"

/-! ### Renderers: template-literal string builders -/

/-- The `<tr>` template for one personnel row (app.js lines 138-146). -/
def personnelRow (p : Person) : String :=
  "\n        <tr>\n          <td>"
    ++ (p.full_name
    ++ ("</td>\n          <td>"
    ++ (p.role
    ++ ("</td>\n          <td>"
    ++ (jsOr p.callsign ""
    ++ ("</td>\n          <td>"
    ++ (p.unit
    ++ "</td>\n        </tr>\n      ")))))))

/-- `renderPersonnel` (app.js lines 133-156): the HTML written to
`#personnel-table`. Note there is no empty-collection branch. -/
def renderPersonnel (personnel : List Person) : String :=
  "\n    <table class=\"table\">\n      <thead>\n        <tr><th>ПІБ</th><th>Роль</th><th>Позивний</th><th>Підрозділ</th></tr>\n      </thead>\n      <tbody>"
    ++ strJoin (personnel.map personnelRow)
    ++ "</tbody>\n    </table>\n  "

/-- One plan card of the dashboard (app.js lines 168-175). -/
def planCard (item : PlanEntry) : String :=
  "\n        <div class=\"card\">\n          <h3>" ++ item.unit
    ++ "</h3>\n          <p><strong>Завдання:</strong> " ++ item.mission
    ++ "</p>\n          <p><strong>Час:</strong> " ++ jsOr item.start_time "--"
    ++ " – " ++ jsOr item.end_time "--"
    ++ "</p>\n          <p><strong>Екіпаж:</strong> " ++ jsOr item.pilot_name "—"
    ++ " / " ++ jsOr item.navigator_name "—"
    ++ "</p>\n        </div>\n      "

/-- One status row of the dashboard (app.js lines 180-187). -/
def dashStatusRow (entry : StatusEntry) : String :=
  "\n        <tr>\n          <td>" ++ entry.person.full_name
    ++ "</td>\n          <td>" ++ entry.person.unit
    ++ "</td>\n          <td><span class=\"status-badge\" style=\"background:" ++ statusColor entry.status
    ++ "\">" ++ entry.status
    ++ "</span></td>\n        </tr>\n      "

/-- `renderDashboard` (app.js lines 163-197): an empty card list falls back
to a placeholder paragraph via `planCards || '...'`; the status table has no
empty branch. -/
def renderDashboard (data : DashboardData) : String :=
  "\n    <div class=\"card-grid\">"
    ++ jsOrS (strJoin (data.plan.map planCard)) "<p>Немає завдань на сьогодні.</p>"
    ++ "</div>\n    <h3>Статуси персоналу (" ++ data.date
    ++ ")</h3>\n    <table class=\"table\">\n      <thead><tr><th>ПІБ</th><th>Підрозділ</th><th>Статус</th></tr></thead>\n      <tbody>"
    ++ strJoin (data.statuses.map dashStatusRow)
    ++ "</tbody>\n    </table>\n  "

/-- One schedule row (app.js lines 223-230). -/
def scheduleRow (item : ScheduleEntry) : String :=
  "\n        <tr>\n          <td>" ++ item.duty_date
    ++ "</td>\n          <td>" ++ item.full_name
    ++ "</td>\n          <td><span class=\"status-badge\" style=\"background:" ++ item.color
    ++ "\">" ++ item.code
    ++ "</span></td>\n          <td>" ++ jsOr item.note ""
    ++ "</td>\n        </tr>\n      "

/-- `renderSchedule` (app.js lines 214-239): an empty entry list yields the
localized empty-state paragraph. -/
def renderSchedule (entries : List ScheduleEntry) : String :=
  if entries.length == 0 then "<p>Даних немає.</p>"
  else
    "\n    <table class=\"table\">\n      <thead><tr><th>Дата</th><th>Співробітник</th><th>Черга</th><th>Нотатки</th></tr></thead>\n      <tbody>"
      ++ strJoin (entries.map scheduleRow)
      ++ "</tbody>\n    </table>\n  "

/-- One plan-view row (app.js lines 258-267). -/
def planRow (item : PlanEntry) : String :=
  "\n        <tr>\n          <td>" ++ item.unit
    ++ "</td>\n          <td>" ++ item.mission
    ++ "</td>\n          <td>" ++ jsOr item.start_time ""
    ++ " – " ++ jsOr item.end_time ""
    ++ "</td>\n          <td>" ++ jsOr item.pilot_name "—"
    ++ "</td>\n          <td>" ++ jsOr item.navigator_name "—"
    ++ "</td>\n          <td>" ++ jsOr item.uav_name "—"
    ++ "</td>\n        </tr>\n      "

/-- `renderPlan` (app.js lines 249-276): an empty entry list yields the
localized empty-state paragraph. -/
def renderPlan (entries : List PlanEntry) : String :=
  if entries.length == 0 then "<p>Даних немає.</p>"
  else
    "\n    <table class=\"table\">\n      <thead><tr><th>Підрозділ</th><th>Завдання</th><th>Час</th><th>Пілот</th><th>Штурман</th><th>БПЛА</th></tr></thead>\n      <tbody>"
      ++ strJoin (entries.map planRow)
      ++ "</tbody>\n    </table>\n  "

/-- One vacation row (app.js lines 292-299). -/
def vacationRow (item : VacationEntry) : String :=
  "\n        <tr>\n          <td>" ++ item.full_name
    ++ "</td>\n          <td>" ++ item.start_date
    ++ "</td>\n          <td>" ++ item.end_date
    ++ "</td>\n          <td>" ++ item.status
    ++ "</td>\n        </tr>\n      "

/-- `renderVacations` (app.js lines 283-308): an empty entry list yields the
localized empty-state paragraph. -/
def renderVacations (entries : List VacationEntry) : String :=
  if entries.length == 0 then "<p>Даних немає.</p>"
  else
    "\n    <table class=\"table\">\n      <thead><tr><th>Співробітник</th><th>Початок</th><th>Кінець</th><th>Статус</th></tr></thead>\n      <tbody>"
      ++ strJoin (entries.map vacationRow)
      ++ "</tbody>\n    </table>\n  "

/-- One analytics duty-summary row (app.js line 325). -/
def dutySummaryRowHtml (item : DutySummaryRow) : String :=
  "<tr><td>" ++ item.code ++ "</td><td>" ++ item.name ++ "</td><td>"
    ++ toString item.total ++ "</td></tr>"

/-- One analytics workload row (app.js line 328). -/
def workloadRowHtml (item : WorkloadRow) : String :=
  "<tr><td>" ++ item.full_name ++ "</td><td>" ++ toString item.total ++ "</td></tr>"

/-- `renderAnalytics` (app.js lines 321-342): the HTML written to
`#analytics-content`. Note there is no empty-collection branch. -/
def renderAnalytics (data : AnalyticsData) : String :=
  "\n      <div class=\"card-grid\">\n        <div>\n          <h3>Чергування за типом</h3>\n        <table class=\"table\"><thead><tr><th>Код</th><th>Назва</th><th>К-сть</th></tr></thead><tbody>"
    ++ strJoin (data.duty_summary.map dutySummaryRowHtml)
    ++ "</tbody></table>\n      </div>\n      <div>\n        <h3>Навантаженість</h3>\n        <table class=\"table\"><thead><tr><th>Співробітник</th><th>К-сть чергувань</th></tr></thead><tbody>"
    ++ strJoin (data.workload.map workloadRowHtml)
    ++ "</tbody></table>\n      </div>\n    </div>\n  "

end SUP

namespace SUP

/-! ### Session state, setAuthenticated, toggleFormsByRole, showView -/

/-- The session credentials held in `state` (app.js lines 1-8) and mirrored
in `localStorage`; `none` models JS `null`/a removed storage key. -/
structure Session where
  token : Option String
  role : Option String
  username : Option String
deriving DecidableEq, Repr

/-- `setAuthenticated` (app.js lines 52-62): the app section is shown (and
the auth section hidden) exactly when `state.token` is truthy. Returns
whether the authenticated view is shown. -/
def setAuthenticated (st : Session) : Bool :=
  jsTruthy st.token

/-- `const privileged = state.role === 'admin' || state.role === 'planner'`
(app.js line 349). -/
def privileged (role : Option String) : Bool :=
  role == some "admin" || role == some "planner"

/-- Whether each creation form carries the `hidden` class after
`toggleFormsByRole` (app.js lines 344-354):
`form.classList.toggle('hidden', !privileged)` on all four forms. -/
structure FormsHidden where
  personnelForm : Bool
  scheduleForm : Bool
  planForm : Bool
  vacationForm : Bool
deriving DecidableEq, Repr

/-- `toggleFormsByRole` (app.js lines 344-354). -/
def toggleFormsByRole (role : Option String) : FormsHidden :=
  let priv := privileged role
  ⟨!priv, !priv, !priv, !priv⟩

/-- Modelled from the spec: the fixed set of named view panels — the DOM
elements with class `.view` and id `view-<name>`. The page markup
(index.html) is not part of `src/`; the spec names the six views served by
the nav buttons and the `#view-<name>` id convention. -/
def viewPanels : List String :=
  ["dashboard", "personnel", "schedule", "plan", "vacations", "analytics"]

/-- `showView` (app.js lines 64-72): every `.view` section gets the `hidden`
class, then the section `view-<name>` — if it exists — has it removed.
Returns the list of panels visible afterwards. -/
def showView (name : String) : List String :=
  viewPanels.filter (fun p => p == name)

/-! ### init (app.js lines 500-518) -/

/-- What the page shows and stores after `init` ran to completion. -/
structure InitResult where
  state : Session
  storage : Session
  authenticatedView : Bool
deriving DecidableEq, Repr

/-- `init` (app.js lines 500-518), with the session restored from storage
already in `st` and mirrored in `storage`. `baseDataOk` tells whether
`loadBaseData()` resolved; `dashOk` whether the subsequent `loadDashboard()`
resolved. The `.catch` branch sets `state.token = null`, removes only the
`token` storage key and calls `setAuthenticated()` again. -/
def init (st storage : Session) (baseDataOk dashOk : Bool) : InitResult :=
  if jsTruthy st.token then
    if baseDataOk && dashOk then
      ⟨st, storage, setAuthenticated st⟩
    else
      let st2 : Session := ⟨none, st.role, st.username⟩
      let storage2 : Session := ⟨none, storage.role, storage.username⟩
      ⟨st2, storage2, setAuthenticated st2⟩
  else
    ⟨st, storage, setAuthenticated st⟩

/-! ### Loaders and the nav click handler (app.js lines 158-161, 206-212,
241-247, 278-281, 310-319, 398-409) -/

/-- A DOM write performed by a handler. -/
inductive DomAction where
  | setHtml (containerId : String) (html : String)
  | setInput (inputId : String) (value : String)
  | populateSelects
  | resetForm (formId : String)
  | toast (message : String)
deriving DecidableEq, Repr

/-- The values of the bound inputs and the current date strings
(`new Date().toISOString().slice(0, 7)` resp. `(0, 10)`). -/
structure Inputs where
  scheduleMonth : String
  planDate : String
  analyticsStart : String
  analyticsEnd : String
  nowMonth : String
  nowDate : String
deriving DecidableEq, Repr

/-- `loadDashboard` (app.js lines 158-161) with the fetched payload `data`:
one GET of `/api/dashboard`, then `renderDashboard`. -/
def loadDashboard (data : DashboardData) : List Request × List DomAction :=
  ([⟨Method.GET, "/api/dashboard"⟩],
   [DomAction.setHtml "dashboard-content" (renderDashboard data)])

/-- `loadSchedule` (app.js lines 206-212): defaults an empty month input to
the current month (writing it back into the input), GETs the schedule and
renders `data.entries`. -/
def loadSchedule (monthValue nowMonth : String) (entries : List ScheduleEntry) :
    List Request × List DomAction :=
  let month := if monthValue == "" then nowMonth else monthValue
  ([⟨Method.GET, "/api/schedule?month=" ++ month⟩],
   (if monthValue == "" then [DomAction.setInput "schedule-month" month] else [])
     ++ [DomAction.setHtml "schedule-table" (renderSchedule entries)])

/-- `loadPlan` (app.js lines 241-247): defaults an empty date input to the
current date (writing it back into the input), GETs the plan and renders
`data.entries`. -/
def loadPlan (dateValue nowDate : String) (entries : List PlanEntry) :
    List Request × List DomAction :=
  let date := if dateValue == "" then nowDate else dateValue
  ([⟨Method.GET, "/api/plan?date=" ++ date⟩],
   (if dateValue == "" then [DomAction.setInput "plan-date" date] else [])
     ++ [DomAction.setHtml "plan-table" (renderPlan entries)])

/-- `loadVacations` (app.js lines 278-281). -/
def loadVacations (entries : List VacationEntry) : List Request × List DomAction :=
  ([⟨Method.GET, "/api/vacations"⟩],
   [DomAction.setHtml "vacation-table" (renderVacations entries)])

/-- `loadAnalytics` (app.js lines 310-319): the `?start=&end=` query is
attached only when both inputs are truthy (non-empty). -/
def loadAnalytics (start end_ : String) (data : AnalyticsData) :
    List Request × List DomAction :=
  let query := if !(start == "") && !(end_ == "") then "?start=" ++ start ++ "&end=" ++ end_ else ""
  ([⟨Method.GET, "/api/analytics/summary" ++ query⟩],
   [DomAction.setHtml "analytics-content" (renderAnalytics data)])

/-- The data the backend would return to each loader, supplied as input so
the handlers stay pure. -/
structure ServerData where
  dashboard : DashboardData
  scheduleEntries : List ScheduleEntry
  planEntries : List PlanEntry
  vacations : List VacationEntry
  analytics : AnalyticsData
deriving Repr

/-- The nav button click handler (app.js lines 398-409): `showView(view)`
then one conditional load per view. The `personnel` branch performs no fetch
and re-renders `state.personnel` from the in-memory cache. Returns the
requests issued and the DOM writes performed (after `showView`). -/
def navClick (view : String) (inp : Inputs) (cache : List Person)
    (data : ServerData) : List Request × List DomAction :=
  let d := if view == "dashboard" then loadDashboard data.dashboard else ([], [])
  let pe :=
    if view == "personnel" then
      (([] : List Request), [DomAction.setHtml "personnel-table" (renderPersonnel cache)])
    else ([], [])
  let s :=
    if view == "schedule" then loadSchedule inp.scheduleMonth inp.nowMonth data.scheduleEntries
    else ([], [])
  let pl :=
    if view == "plan" then loadPlan inp.planDate inp.nowDate data.planEntries
    else ([], [])
  let v := if view == "vacations" then loadVacations data.vacations else ([], [])
  let a :=
    if view == "analytics" then loadAnalytics inp.analyticsStart inp.analyticsEnd data.analytics
    else ([], [])
  (d.1 ++ pe.1 ++ s.1 ++ pl.1 ++ v.1 ++ a.1,
   d.2 ++ pe.2 ++ s.2 ++ pl.2 ++ v.2 ++ a.2)

/-! ### Personnel form submit handler (app.js lines 426-444) -/

/-- Result of the personnel submit handler: the personnel cache afterwards,
the requests issued, and the DOM writes performed. -/
structure SubmitResult where
  cache : List Person
  requests : List Request
  actions : List DomAction
deriving Repr

/-- The personnel form submit handler (app.js lines 426-444): POSTs the form
fields to `/api/personnel` via `apiFetch`; on success pushes the created
record onto `state.personnel`, repopulates the selects, re-renders the
personnel table and resets the form; on failure (the `catch` branch) only
logs — `apiFetch` itself has already shown the toast. -/
def personnelSubmit (cache : List Person) (out : FetchOutcome Person) : SubmitResult :=
  let req : Request := ⟨Method.POST, "/api/personnel"⟩
  match apiFetch out with
  | (Except.ok created, _) =>
      let cache2 := cache ++ [created]
      { cache := cache2
        requests := [req]
        actions := [DomAction.populateSelects,
                    DomAction.setHtml "personnel-table" (renderPersonnel cache2),
                    DomAction.resetForm "personnel-form"] }
  | (Except.error _, toasts) =>
      { cache := cache
        requests := [req]
        actions := toasts.map DomAction.toast }

end SUP

namespace SUP

/-! ### String helpers and lemmas -/

/-- Whether `pat` occurs as a contiguous sublist of `s`. -/
def listContainsSub (s pat : List Char) : Bool :=
  match s with
  | [] => pat.isEmpty
  | c :: rest => pat.isPrefixOf (c :: rest) || listContainsSub rest pat

/-- Whether `pat` occurs as a substring of `s` (JS `String.prototype.includes`). -/
def containsSub (s pat : String) : Bool :=
  listContainsSub s.data pat.data

theorem str_append_empty (s : String) : s ++ "" = s := by
  cases s with
  | mk d =>
      show String.mk (d ++ []) = String.mk d
      rw [List.append_nil]

theorem str_append_assoc (a b c : String) : a ++ b ++ c = a ++ (b ++ c):= by
  cases a with
  | mk x =>
      cases b with
      | mk y =>
          cases c with
          | mk z =>
              show String.mk (x ++ y ++ z) = String.mk (x ++ (y ++ z))
              rw [List.append_assoc]

theorem strJoin_snoc (xs : List String) (y : String) :
    strJoin (xs ++ [y]) = strJoin xs ++ y := by
  induction xs with
  | nil =>
      show y ++ "" = "" ++ y
      rw [str_append_empty]
      rfl
  | cons h t ih =>
      show h ++ strJoin (t ++ [y]) = h ++ strJoin t ++ y
      rw [ih, str_append_assoc]

end SUP

namespace SUP

/-! ### Claim theorems -/

/-- C1, counterexample: the claim says a failed base-data fetch during
startup restore purges token, role AND username from memory and storage; in
fact `init`'s catch branch leaves `role` and `username` in both (only the
token is cleared). -/
theorem init_counterexample_role_username_kept :
    (init ⟨some "tok", some "admin", some "alice"⟩ ⟨some "tok", some "admin", some "alice"⟩
        false true).state.token = none
    ∧ (init ⟨some "tok", some "admin", some "alice"⟩ ⟨some "tok", some "admin", some "alice"⟩
        false true).state.role = some "admin"
    ∧ (init ⟨some "tok", some "admin", some "alice"⟩ ⟨some "tok", some "admin", some "alice"⟩
        false true).state.username = some "alice"
    ∧ (init ⟨some "tok", some "admin", some "alice"⟩ ⟨some "tok", some "admin", some "alice"⟩
        false true).storage.role = some "admin"
    ∧ (init ⟨some "tok", some "admin", some "alice"⟩ ⟨some "tok", some "admin", some "alice"⟩
        false true).storage.username = some "alice" := by
  decide

/-- C1 (amended): if a base-data fetch fails while restoring an existing
session at startup, the token — and only the token — is cleared from both
the in-memory state and durable storage (role and username are left in
place), and the UI reverts to the anonymous view. -/
theorem init_base_data_failure_clears_token (st storage : Session)
    (h : jsTruthy st.token = true) (dashOk : Bool) :
    (init st storage false dashOk).state.token = none
    ∧ (init st storage false dashOk).storage.token = none
    ∧ (init st storage false dashOk).authenticatedView = false
    ∧ (init st storage false dashOk).state.role = st.role
    ∧ (init st storage false dashOk).state.username = st.username
    ∧ (init st storage false dashOk).storage.role = storage.role
    ∧ (init st storage false dashOk).storage.username = storage.username := by
  have hf : jsTruthy (none : Option String) = false := rfl
  simp [init, setAuthenticated, h, hf]

/-- C1, witness for the amended theorem at a concrete session. -/
theorem init_base_data_failure_clears_token_witness :
    (init ⟨some "tok", some "viewer", some "bob"⟩ ⟨some "tok", some "viewer", some "bob"⟩
        false true).state.token = none
    ∧ (init ⟨some "tok", some "viewer", some "bob"⟩ ⟨some "tok", some "viewer", some "bob"⟩
        false true).storage.token = none
    ∧ (init ⟨some "tok", some "viewer", some "bob"⟩ ⟨some "tok", some "viewer", some "bob"⟩
        false true).authenticatedView = false
    ∧ (init ⟨some "tok", some "viewer", some "bob"⟩ ⟨some "tok", some "viewer", some "bob"⟩
        false true).state.role = some "viewer"
    ∧ (init ⟨some "tok", some "viewer", some "bob"⟩ ⟨some "tok", some "viewer", some "bob"⟩
        false true).state.username = some "bob"
    ∧ (init ⟨some "tok", some "viewer", some "bob"⟩ ⟨some "tok", some "viewer", some "bob"⟩
        false true).storage.role = some "viewer"
    ∧ (init ⟨some "tok", some "viewer", some "bob"⟩ ⟨some "tok", some "viewer", some "bob"⟩
        false true).storage.username = some "bob" :=
  init_base_data_failure_clears_token ⟨some "tok", some "viewer", some "bob"⟩
    ⟨some "tok", some "viewer", some "bob"⟩ (by decide) true

/-- C2, counterexample: the claim says EVERY list-based view renders the
localized empty-state message on an empty collection; `renderPersonnel` and
`renderAnalytics` instead emit a table with an empty `<tbody>`. -/
theorem renderPersonnel_empty_counterexample :
    renderPersonnel [] ≠ "<p>Даних немає.</p>"
    ∧ containsSub (renderPersonnel []) "<table" = true
    ∧ containsSub (renderPersonnel []) "<tbody></tbody>" = true
    ∧ renderAnalytics ⟨[], []⟩ ≠ "<p>Даних немає.</p>"
    ∧ containsSub (renderAnalytics ⟨[], []⟩) "<tbody></tbody>" = true := by
  decide

/-- C2 (amended): the schedule, plan and vacations renderers substitute the
localized empty-state message for an empty collection; the personnel and
analytics renderers have no empty-state branch and emit a table with an
empty body. -/
theorem empty_collection_rendering :
    renderSchedule [] = "<p>Даних немає.</p>"
    ∧ renderPlan [] = "<p>Даних немає.</p>"
    ∧ renderVacations [] = "<p>Даних немає.</p>"
    ∧ renderPersonnel [] ≠ "<p>Даних немає.</p>"
    ∧ containsSub (renderPersonnel []) "<tbody></tbody>" = true
    ∧ renderAnalytics ⟨[], []⟩ ≠ "<p>Даних немає.</p>"
    ∧ containsSub (renderAnalytics ⟨[], []⟩) "<tbody></tbody>" = true := by
  decide

/-- C3, counterexample: with a non-2xx JSON body whose `detail` is the empty
string (`X = ""`), the raised message and the toast are NOT `X`: JS `||`
treats `''` as falsy, so the code falls through to the status text. -/
theorem apiFetch_empty_detail_counterexample :
    (apiFetch (FetchOutcome.failure "Bad Request" (ErrPayload.json (some "") none)
        : FetchOutcome Unit)).1 = Except.error "Bad Request"
    ∧ (apiFetch (FetchOutcome.failure "Bad Request" (ErrPayload.json (some "") none)
        : FetchOutcome Unit)).2 = ["Bad Request"]
    ∧ "Bad Request" ≠ "" := by
  exact ⟨rfl, rfl, by decide⟩

/-- C3 (amended): for a non-2xx response with JSON body whose `detail` is a
non-empty string `X`, `apiFetch` raises a failure with message `X` and the
toast text is `X`; the same holds when `detail` is absent or empty and
`message` is the non-empty `X`; when both are absent or empty the message
falls back to the response status text; a plain-text error body also falls
back to the status text. -/
theorem apiFetch_error_message_chain (st X b : String) (d m : Option String)
    (hX : X ≠ "") :
    apiFetch (FetchOutcome.failure st (ErrPayload.json (some X) m) : FetchOutcome Unit)
      = (Except.error X, [X])
    ∧ apiFetch (FetchOutcome.failure st (ErrPayload.json none (some X)) : FetchOutcome Unit)
      = (Except.error X, [X])
    ∧ apiFetch (FetchOutcome.failure st (ErrPayload.json (some "") (some X)) : FetchOutcome Unit)
      = (Except.error X, [X])
    ∧ ((d = none ∨ d = some "") → (m = none ∨ m = some "") →
        apiFetch (FetchOutcome.failure st (ErrPayload.json d m) : FetchOutcome Unit)
          = (Except.error st, [toastText st]))
    ∧ apiFetch (FetchOutcome.failure st (ErrPayload.text b) : FetchOutcome Unit)
      = (Except.error st, [toastText st]) := by
  have hb : (X == "") = false := beq_eq_false_iff_ne.mpr hX
  refine ⟨?_, ?_, ?_, ?_, rfl⟩
  · simp [apiFetch, errMessage, jsOr, toastText, hb]
  · simp [apiFetch, errMessage, jsOr, toastText, hb]
  · simp [apiFetch, errMessage, jsOr, toastText, hb]
  · intro hd hm
    rcases hd with rfl | rfl <;> rcases hm with rfl | rfl <;>
      simp [apiFetch, errMessage, jsOr, toastText]

/-- C3, witness for the amended theorem at concrete inputs. -/
theorem apiFetch_error_message_chain_witness :
    apiFetch (FetchOutcome.failure "Not Found" (ErrPayload.json (some "X") none)
        : FetchOutcome Unit)
      = (Except.error "X", ["X"])
    ∧ apiFetch (FetchOutcome.failure "Not Found" (ErrPayload.json none none)
        : FetchOutcome Unit)
      = (Except.error "Not Found", [toastText "Not Found"]) :=
  ⟨(apiFetch_error_message_chain "Not Found" "X" "body" none none (by decide)).1,
   (apiFetch_error_message_chain "Not Found" "X" "body" none none (by decide)).2.2.2.1
     (Or.inl rfl) (Or.inl rfl)⟩

/-- C4: for every session role, each of the four creation forms is visible
(does not carry the `hidden` class) exactly when the role is `admin` or
`planner`. -/
theorem toggleFormsByRole_visibility (role : Option String) :
    ((toggleFormsByRole role).personnelForm = false
      ↔ (role = some "admin" ∨ role = some "planner"))
    ∧ ((toggleFormsByRole role).scheduleForm = false
      ↔ (role = some "admin" ∨ role = some "planner"))
    ∧ ((toggleFormsByRole role).planForm = false
      ↔ (role = some "admin" ∨ role = some "planner"))
    ∧ ((toggleFormsByRole role).vacationForm = false
      ↔ (role = some "admin" ∨ role = some "planner")) := by
  simp [toggleFormsByRole, privileged]
  tauto

/-- C5: a nav click on `dashboard` issues exactly the single GET of
`/api/dashboard`; a nav click on `personnel` issues no request at all and
re-renders the in-memory personnel cache into `#personnel-table`. -/
theorem navClick_dashboard_and_personnel (inp : Inputs) (cache : List Person)
    (data : ServerData) :
    (navClick "dashboard" inp cache data).1 = [⟨Method.GET, "/api/dashboard"⟩]
    ∧ (navClick "dashboard" inp cache data).2
        = [DomAction.setHtml "dashboard-content" (renderDashboard data.dashboard)]
    ∧ (navClick "personnel" inp cache data).1 = []
    ∧ (navClick "personnel" inp cache data).2
        = [DomAction.setHtml "personnel-table" (renderPersonnel cache)] := by
  exact ⟨rfl, rfl, rfl, rfl⟩

/-- C6: a successful personnel-creation submission appends the created
record to the in-memory cache, issues only the single POST (no GET), and the
re-rendered personnel table contains the created record's name. -/
theorem personnelSubmit_success_appends (cache : List Person) (created : Person) :
    (personnelSubmit cache (FetchOutcome.success created)).cache = cache ++ [created]
    ∧ (personnelSubmit cache (FetchOutcome.success created)).requests
        = [⟨Method.POST, "/api/personnel"⟩]
    ∧ (personnelSubmit cache (FetchOutcome.success created)).actions
        = [DomAction.populateSelects,
           DomAction.setHtml "personnel-table" (renderPersonnel (cache ++ [created])),
           DomAction.resetForm "personnel-form"]
    ∧ ∃ a b, renderPersonnel (cache ++ [created]) = a ++ (created.full_name ++ b) := by
  refine ⟨rfl, rfl, rfl, ?_⟩
  refine ⟨"\n    <table class=\"table\">\n      <thead>\n        <tr><th>ПІБ</th><th>Роль</th><th>Позивний</th><th>Підрозділ</th></tr>\n      </thead>\n      <tbody>"
      ++ strJoin (List.map personnelRow cache) ++ "\n        <tr>\n          <td>",
    "</td>\n          <td>"
      ++ (created.role
      ++ ("</td>\n          <td>"
      ++ (jsOr created.callsign ""
      ++ ("</td>\n          <td>"
      ++ (created.unit
      ++ ("</td>\n        </tr>\n      " ++ "</tbody>\n    </table>\n  ")))))), ?_⟩
  simp only [renderPersonnel, personnelRow, List.map_append, List.map_cons, List.map_nil,
    strJoin_snoc, str_append_assoc]

/-- C7, counterexample: `showView` with a name that matches no panel leaves
ZERO panels visible, not exactly one. -/
theorem showView_unknown_counterexample :
    showView "settings" = [] ∧ (showView "settings").length ≠ 1 := by
  decide

/-- C7 (amended): after `showView name`, exactly one panel is visible when
`name` matches one of the fixed panels — namely that panel — and zero panels
are visible otherwise. -/
theorem showView_exactly_one (name : String) :
    (showView name).length = (if name ∈ viewPanels then 1 else 0)
    ∧ (∀ p, p ∈ showView name ↔ (p ∈ viewPanels ∧ p = name)) := by
  constructor
  · by_cases h : name ∈ viewPanels
    · rw [if_pos h]
      fin_cases h <;> rfl
    · rw [if_neg h]
      have hnil : showView name = [] := by
        apply List.filter_eq_nil_iff.mpr
        intro a ha
        simp only [beq_iff_eq]
        intro heq
        exact h (heq ▸ ha)
      rw [hnil]
      rfl
  · intro p
    simp only [showView, List.mem_filter, beq_iff_eq]

/-- C8, counterexample: the empty status string yields a fourth colour
(grey), outside the claimed three-colour palette. -/
theorem statusColor_empty_counterexample :
    statusColor "" = "#95a5a6"
    ∧ statusColor "" ≠ "#2ecc71"
    ∧ statusColor "" ≠ "#e67e22"
    ∧ statusColor "" ≠ "#1f3c88" := by
  decide

/-- C8 (amended): for every NON-empty status string, one of exactly three
colours is selected by substring match on the lowercased text — green when
`в` occurs, otherwise orange when `р` occurs, blue otherwise; a falsy
(empty) status is mapped to a separate grey. -/
theorem statusColor_nonempty (s : String) (h : s ≠ "") :
    (includesChar (jsToLower s) 'в' = true → statusColor s = "#2ecc71")
    ∧ (includesChar (jsToLower s) 'в' = false → includesChar (jsToLower s) 'р' = true →
        statusColor s = "#e67e22")
    ∧ (includesChar (jsToLower s) 'в' = false → includesChar (jsToLower s) 'р' = false →
        statusColor s = "#1f3c88")
    ∧ (statusColor s = "#2ecc71" ∨ statusColor s = "#e67e22" ∨ statusColor s = "#1f3c88") := by
  have hb : (s == "") = false := beq_eq_false_iff_ne.mpr h
  refine ⟨?_, ?_, ?_, ?_⟩
  · intro h1
    simp [statusColor, hb, h1]
  · intro h1 h2
    simp [statusColor, hb, h1, h2]
  · intro h1 h2
    simp [statusColor, hb, h1, h2]
  · by_cases h1 : includesChar (jsToLower s) 'в' = true
    · exact Or.inl (by simp [statusColor, hb, h1])
    · by_cases h2 : includesChar (jsToLower s) 'р' = true
      · exact Or.inr (Or.inl (by simp [statusColor, hb, h1, h2]))
      · exact Or.inr (Or.inr (by simp [statusColor, hb, h1, h2]))

/-- C8, witness for the amended theorem at three concrete statuses. -/
theorem statusColor_nonempty_witness :
    statusColor "Відпустка" = "#2ecc71"
    ∧ statusColor "наряд" = "#e67e22"
    ∧ statusColor "база" = "#1f3c88" :=
  ⟨(statusColor_nonempty "Відпустка" (by decide)).1 (by decide),
   (statusColor_nonempty "наряд" (by decide)).2.1 (by decide) (by decide),
   (statusColor_nonempty "база" (by decide)).2.2.1 (by decide) (by decide)⟩

/-- C9: the analytics GET carries the `?start=&end=` query exactly when both
inputs are non-empty; when either is empty (in particular when exactly one
is filled) the request path is the bare endpoint, which contains no query
separator at all. -/
theorem loadAnalytics_query_both_required (start end_ : String) (data : AnalyticsData) :
    (loadAnalytics start end_ data).1
      = [⟨Method.GET,
          if start = "" ∨ end_ = "" then "/api/analytics/summary"
          else "/api/analytics/summary?start=" ++ start ++ "&end=" ++ end_⟩]
    ∧ ((start = "" ∨ end_ = "") →
        (loadAnalytics start end_ data).1 = [⟨Method.GET, "/api/analytics/summary"⟩]
        ∧ includesChar "/api/analytics/summary" '?' = false) := by
  have hq : includesChar "/api/analytics/summary" '?' = false := by decide
  by_cases hs : start = "" <;> by_cases he : end_ = "" <;>
    (simp [loadAnalytics, hs, he, str_append_empty, hq]; try rfl)

/-- C9, witness: with only the start input filled, the request has no query. -/
theorem loadAnalytics_query_both_required_witness :
    (loadAnalytics "2024-01-01" "" ⟨[], []⟩).1 = [⟨Method.GET, "/api/analytics/summary"⟩]
    ∧ includesChar "/api/analytics/summary" '?' = false :=
  (loadAnalytics_query_both_required "2024-01-01" "" ⟨[], []⟩).2 (Or.inr rfl)

/-- C10: when the personnel-creation POST fails — network error or non-2xx
response — the cache is unchanged, the only request is the POST, and the
only DOM effect is the error toast: no select repopulation and no table
re-render. -/
theorem personnelSubmit_failure_no_mutation (cache : List Person) (st : String)
    (p : ErrPayload) (m : String) :
    (personnelSubmit cache (FetchOutcome.failure st p)).cache = cache
    ∧ (personnelSubmit cache (FetchOutcome.failure st p)).requests
        = [⟨Method.POST, "/api/personnel"⟩]
    ∧ (personnelSubmit cache (FetchOutcome.failure st p)).actions
        = [DomAction.toast (toastText (errMessage p st))]
    ∧ (personnelSubmit cache (FetchOutcome.networkError m)).cache = cache
    ∧ (personnelSubmit cache (FetchOutcome.networkError m)).requests
        = [⟨Method.POST, "/api/personnel"⟩]
    ∧ (personnelSubmit cache (FetchOutcome.networkError m)).actions
        = [DomAction.toast (toastText m)] := by
  exact ⟨rfl, rfl, rfl, rfl, rfl, rfl⟩

end SUP
